import Mathlib

/-!
# Verification of `pystruct/plot_learning.py`

Shallow embedding of the learning-curve plotting module of pystruct.
The Python module inspects a deserialized SSVM learner object via
`hasattr` probing (optional attributes become `Option` fields here),
computes an iteration axis, an optional inference mask from cached
constraint flags, an x-axis (iterations or wall-clock minutes), and
emits matplotlib plot calls, which we model as a list of `DrawCommand`
values.  Python exceptions (AttributeError on a missing attribute,
IndexError on `[-1]` of an empty sequence, ValueError from `np.max` of
an empty array or a matplotlib length mismatch) are modelled by `none`.
Numbers are rationals; numpy float arithmetic is exact on the values
involved here.
-/

set_option maxRecDepth 4000

namespace PlotLearning

/-- The attributes that `plot_learning` probes on a learner object.
Each is optional: `hasattr` failing is `none`.  Curves are sequences of
rationals, `cached_constraint_` a sequence of booleans,
`show_loss_every` an integer stride. -/
structure Snapshot where
  iterations_ : Option (List ℚ)
  dual_objective_curve_ : Option (List ℚ)
  primal_objective_curve_ : Option (List ℚ)
  loss_curve_ : Option (List ℚ)
  timestamps_ : Option (List ℚ)
  cached_constraint_ : Option (List Bool)
  show_loss_every : Option Nat
deriving DecidableEq, Repr

/-- A learner object as loaded from a pickle: its own attributes, plus an
optional wrapped inner learner (`base_ssvm`).  `hasattr(ssvm, 'base_ssvm')`
is `base_ssvm.isSome`. -/
structure SSVM where
  outer : Snapshot
  base_ssvm : Option Snapshot
deriving DecidableEq, Repr

/-- `if hasattr(ssvm, 'base_ssvm'): ssvm = ssvm.base_ssvm` —
the single-level unwrap at the top of `plot_learning`. -/
def unwrap (v : SSVM) : Snapshot :=
  v.base_ssvm.getD v.outer

/-- Style of a matplotlib plot call: `'--'` dashed, default solid line,
`'o'` marker-only. -/
inductive LineStyle where
  | dashed
  | solid
  | markers
deriving DecidableEq, Repr

/-- One `axes[panel].plot(x, y, style, label)` call. -/
structure DrawCommand where
  panel : Nat
  style : LineStyle
  x : List ℚ
  y : List ℚ
  label : String
deriving DecidableEq, Repr

/-- `np.arange(n)` as a list of rationals. -/
def arange (n : Nat) : List ℚ :=
  (List.range n).map (fun i => (i : ℚ))

/-- Numpy boolean-mask indexing `xs[mask]`: keep the entries whose mask
bit is true, aligned positionally, over the common length. -/
def maskSelect {α : Type} (xs : List α) (mask : List Bool) : List α :=
  ((xs.zip mask).filter (fun p => p.2)).map Prod.fst

/-- Python extended slice `xs[::k]` for a nonnegative stride `k`
(elements at indices `0, k, 2k, ...`; `k = 0` raises in Python and is
guarded at the call site). -/
def strideSlice {α : Type} (xs : List α) (k : Nat) : List α :=
  ((xs.enum.filter (fun p => p.1 % k = 0)).map Prod.snd)

/-- `axes[p].plot(x, y, ...)`: matplotlib raises a ValueError when `x`
and `y` have different lengths, modelled as `none`. -/
def plotCmd (panel : Nat) (style : LineStyle) (x y : List ℚ)
    (label : String) : Option DrawCommand :=
  if x.length = y.length then some ⟨panel, style, x, y, label⟩ else none

/-- Lines 70–78: the `iterations` variable.  `iterations_` verbatim when
present; else `np.arange(len(dual_objective_curve_))`; else
`np.arange(len(primal_objective_curve_))`; `none` when none of the three
attributes exists (AttributeError). -/
def iterationsOf (s : Snapshot) : Option (List ℚ) :=
  match s.iterations_ with
  | some its => some its
  | none =>
    match s.dual_objective_curve_ with
    | some d => some (arange d.length)
    | none =>
      match s.primal_objective_curve_ with
      | some p => some (arange p.length)
      | none => none

/-- Lines 81–85: `inference_run`.  Present only when
`cached_constraint_` exists and `np.any` of it holds, in which case it
is the negation `~np.array(cached_constraint_)`. -/
def inference_run (s : Snapshot) : Option (List Bool) :=
  match s.cached_constraint_ with
  | some flags => if flags.any id then some (flags.map not) else none
  | none => none

/-- Line 112: `inference_run[:len(ssvm.dual_objective_curve_)]` — the
mask truncated to the dual curve's length; `none` when the mask is
absent, or when `dual_objective_curve_` is absent (AttributeError). -/
def truncated_inference_run (s : Snapshot) : Option (List Bool) :=
  match inference_run s, s.dual_objective_curve_ with
  | some m, some d => some (m.take d.length)
  | some _, none => none
  | none, _ => none

/-- Lines 95–101: the shared x-axis `inds`.  With `time` set it is
`np.array(timestamps_)[1:] / 60.` (AttributeError → `none` when
`timestamps_` is absent); otherwise it is `iterations`. -/
def indsOf (s : Snapshot) (time : Bool) (iterations : List ℚ) :
    Option (List ℚ) :=
  if time then
    match s.timestamps_ with
    | some ts => some (ts.tail.map (fun t => t / 60))
    | none => none
  else some iterations

/-- Lines 104–106: the dashed dual-objective line, when the attribute
exists. -/
def dualCmds (s : Snapshot) (inds : List ℚ) (pre : String) :
    Option (List DrawCommand) :=
  match s.dual_objective_curve_ with
  | some d =>
    Option.map (fun c => [c])
      (plotCmd 0 LineStyle.dashed inds d (pre ++ "dual objective"))
  | none => some []

/-- Lines 107–110: the solid primal-objective line; its label says
"cached" exactly when `inference_run` is not `None`. -/
def primalCmds (s : Snapshot) (inds : List ℚ) (pre : String) :
    Option (List DrawCommand) :=
  match s.primal_objective_curve_ with
  | some p =>
    Option.map (fun c => [c])
      (plotCmd 0 LineStyle.solid inds p
        (if (inference_run s).isSome then pre ++ "cached primal objective"
         else pre ++ "primal objective"))
  | none => some []

/-- Lines 111–115: the marker-only overlay
`plot(inds[inference_run], np.array(primal)[inference_run], 'o')` after
truncating the mask to the dual curve's length.  Reading
`dual_objective_curve_` or `primal_objective_curve_` when absent is an
AttributeError (`none`). -/
def overlayCmds (s : Snapshot) (inds : List ℚ) (pre : String) :
    Option (List DrawCommand) :=
  match inference_run s with
  | none => some []
  | some m =>
    match s.dual_objective_curve_, s.primal_objective_curve_ with
    | some d, some p =>
      Option.map (fun c => [c])
        (plotCmd 0 LineStyle.markers (maskSelect inds (m.take d.length))
          (maskSelect p (m.take d.length)) (pre ++ "primal"))
    | _, _ => none

/-- Lines 123–126: the error-panel x-axis.  The `try` plots
`inds[::show_loss_every]` against the loss curve; any failure there —
missing `show_loss_every` attribute, zero stride (a Python ValueError),
or a matplotlib length mismatch — is caught, and the bare
`plot(loss_curve_)` fallback plots the loss against the implicit index
axis `0..len-1`. -/
def lossX (s : Snapshot) (inds : List ℚ) (l : List ℚ) : List ℚ :=
  match s.show_loss_every with
  | some k =>
    if k ≠ 0 ∧ (strideSlice inds k).length = l.length then strideSlice inds k
    else arange l.length
  | none => arange l.length

/-- The single plot call of the error panel, against the x-axis chosen
by the `try`/`except` of lines 123–126. -/
def lossCmds (s : Snapshot) (inds : List ℚ) : Option (List DrawCommand) :=
  match s.loss_curve_ with
  | some l => some [⟨1, LineStyle.solid, lossX s inds l, l, ""⟩]
  | none => some []

/-- The body of `plot_learning` after the `base_ssvm` unwrap: compute
`iterations` (the `np.max` report on line 80 raises on an empty axis),
compute `inds`, and emit the objective-panel and error-panel plot calls
in source order.  `none` models an uncaught Python exception. -/
def plot_snapshot (s : Snapshot) (time : Bool) (pre : String) :
    Option (List DrawCommand) :=
  match iterationsOf s with
  | none => none
  | some iterations =>
    if iterations.isEmpty then none
    else
      match indsOf s time iterations with
      | none => none
      | some inds =>
        match dualCmds s inds pre, primalCmds s inds pre,
              overlayCmds s inds pre, lossCmds s inds with
        | some dc, some pc, some oc, some lc => some (dc ++ pc ++ oc ++ lc)
        | _, _, _, _ => none

/-- `plot_learning(ssvm, time, axes, prefix)`: unwrap `base_ssvm` if
present, then run the plotting body on the resulting snapshot. -/
def plot_learning (v : SSVM) (time : Bool) (pre : String) :
    Option (List DrawCommand) :=
  plot_snapshot (unwrap v) time pre

/-- Lines 27–31 of `main`: the panel count for a batch,
`2` iff `np.any([hasattr(ssvm, 'loss_curve_') for ssvm in ssvms])` —
note the probe is on the loaded object itself, before any
`base_ssvm` unwrapping. -/
def n_plots_main (ssvms : List SSVM) : Nat :=
  if ssvms.any (fun v => v.outer.loss_curve_.isSome) then 2 else 1

/-! ## Concrete example inputs -/

/-- A learner with only a dual objective curve and no timestamps. -/
def exC1 : SSVM :=
  ⟨⟨none, some [10, 8, 6], none, none, none, none, none⟩, none⟩

/-- A wrapper without a `loss_curve_` of its own whose `base_ssvm`
does have one. -/
def exC2 : SSVM :=
  ⟨⟨none, some [1], none, none, none, none, none⟩,
   some ⟨none, some [1], none, some [9], none, none, none⟩⟩

/-- Dual curve of length 8, loss curve of length 5, stride 2:
the subsampled axis has length 4 and mismatches the loss curve. -/
def exC3 : SSVM :=
  ⟨⟨none, some [8, 7, 6, 5, 4, 3, 2, 1], none, some [5, 4, 3, 2, 1],
    none, none, some 2⟩, none⟩

/-- The end-to-end scenario: `dual_objective_curve_=[10,8,6]`,
`primal_objective_curve_=[20,15,11]`,
`cached_constraint_=[false,true,false]`. -/
def exE2E : SSVM :=
  ⟨⟨none, some [10, 8, 6], some [20, 15, 11], none, none,
    some [false, true, false], none⟩, none⟩

/-- A learner whose `cached_constraint_` is all-false. -/
def exAllFalse : SSVM :=
  ⟨⟨none, some [1, 2], some [3, 4], none, none,
    some [false, false], none⟩, none⟩

/-- Cached constraints with a true entry but no dual objective curve. -/
def exC10 : SSVM :=
  ⟨⟨some [0], none, some [1], none, none, some [true], none⟩, none⟩

/-- Timestamps `[0, 10, 70, 130]` seconds. -/
def exC8 : Snapshot :=
  ⟨none, some [1, 2, 3], none, none, some [0, 10, 70, 130], none, none⟩

/-- The draw commands produced for `exE2E` under the iteration basis:
dashed dual line, solid "cached primal objective" line, and the marker
overlay at `x=[0,2]`, `y=[20,11]`. -/
def cmdsE2E : List DrawCommand :=
  [⟨0, LineStyle.dashed, [0, 1, 2], [10, 8, 6], "dual objective"⟩,
   ⟨0, LineStyle.solid, [0, 1, 2], [20, 15, 11], "cached primal objective"⟩,
   ⟨0, LineStyle.markers, [0, 2], [20, 11], "primal"⟩]

/-- The draw commands produced for `exC3` under the iteration basis:
the error panel falls back to the plain index axis `[0,1,2,3,4]`. -/
def cmdsC3 : List DrawCommand :=
  [⟨0, LineStyle.dashed, [0, 1, 2, 3, 4, 5, 6, 7],
    [8, 7, 6, 5, 4, 3, 2, 1], "dual objective"⟩,
   ⟨1, LineStyle.solid, [0, 1, 2, 3, 4], [5, 4, 3, 2, 1], ""⟩]

/-- The draw commands produced for `exAllFalse` under the iteration
basis: no marker overlay, and the primal label has no "cached". -/
def cmdsAllFalse : List DrawCommand :=
  [⟨0, LineStyle.dashed, [0, 1], [1, 2], "dual objective"⟩,
   ⟨0, LineStyle.solid, [0, 1], [3, 4], "primal objective"⟩]

/-! ## Inversion lemmas -/

theorem plotCmd_some {p : Nat} {st : LineStyle} {x y : List ℚ} {l : String}
    {c : DrawCommand} (h : plotCmd p st x y l = some c) :
    x.length = y.length ∧ c = ⟨p, st, x, y, l⟩ := by
  unfold plotCmd at h
  split at h
  · exact ⟨by assumption, (Option.some.inj h).symm⟩
  · cases h

theorem dualCmds_inv {s : Snapshot} {inds : List ℚ} {pre : String}
    {dc : List DrawCommand} (h : dualCmds s inds pre = some dc) :
    (s.dual_objective_curve_ = none ∧ dc = []) ∨
    ∃ d, s.dual_objective_curve_ = some d ∧ inds.length = d.length ∧
      dc = [⟨0, LineStyle.dashed, inds, d, pre ++ "dual objective"⟩] := by
  unfold dualCmds at h
  split at h
  next d hd =>
    obtain ⟨c, hc, rfl⟩ := Option.map_eq_some'.mp h
    obtain ⟨hlen, rfl⟩ := plotCmd_some hc
    exact Or.inr ⟨d, hd, hlen, rfl⟩
  next hd =>
    exact Or.inl ⟨hd, (Option.some.inj h).symm⟩

theorem primalCmds_inv {s : Snapshot} {inds : List ℚ} {pre : String}
    {pc : List DrawCommand} (h : primalCmds s inds pre = some pc) :
    (s.primal_objective_curve_ = none ∧ pc = []) ∨
    ∃ p, s.primal_objective_curve_ = some p ∧ inds.length = p.length ∧
      pc = [⟨0, LineStyle.solid, inds, p,
        if (inference_run s).isSome then pre ++ "cached primal objective"
        else pre ++ "primal objective"⟩] := by
  unfold primalCmds at h
  split at h
  next p hp =>
    obtain ⟨c, hc, rfl⟩ := Option.map_eq_some'.mp h
    obtain ⟨hlen, rfl⟩ := plotCmd_some hc
    exact Or.inr ⟨p, hp, hlen, rfl⟩
  next hp =>
    exact Or.inl ⟨hp, (Option.some.inj h).symm⟩

theorem overlayCmds_inv {s : Snapshot} {inds : List ℚ} {pre : String}
    {oc : List DrawCommand} (h : overlayCmds s inds pre = some oc) :
    (inference_run s = none ∧ oc = []) ∨
    ∃ m d p, inference_run s = some m ∧
      s.dual_objective_curve_ = some d ∧
      s.primal_objective_curve_ = some p ∧
      (maskSelect inds (m.take d.length)).length =
        (maskSelect p (m.take d.length)).length ∧
      oc = [⟨0, LineStyle.markers, maskSelect inds (m.take d.length),
             maskSelect p (m.take d.length), pre ++ "primal"⟩] := by
  unfold overlayCmds at h
  split at h
  next hm => exact Or.inl ⟨hm, (Option.some.inj h).symm⟩
  next m hm =>
    split at h
    next d p hd hp =>
      obtain ⟨c, hc, rfl⟩ := Option.map_eq_some'.mp h
      obtain ⟨hlen, rfl⟩ := plotCmd_some hc
      exact Or.inr ⟨m, d, p, hm, hd, hp, hlen, rfl⟩
    next => cases h

theorem lossCmds_inv {s : Snapshot} {inds : List ℚ}
    {lc : List DrawCommand} (h : lossCmds s inds = some lc) :
    (s.loss_curve_ = none ∧ lc = []) ∨
    ∃ l, s.loss_curve_ = some l ∧
      lc = [⟨1, LineStyle.solid, lossX s inds l, l, ""⟩] := by
  unfold lossCmds at h
  split at h
  next l hl => exact Or.inr ⟨l, hl, (Option.some.inj h).symm⟩
  next hl => exact Or.inl ⟨hl, (Option.some.inj h).symm⟩

theorem plot_snapshot_inv {s : Snapshot} {time : Bool} {pre : String}
    {cmds : List DrawCommand} (h : plot_snapshot s time pre = some cmds) :
    ∃ its inds dc pc oc lc,
      iterationsOf s = some its ∧ its ≠ [] ∧
      indsOf s time its = some inds ∧
      dualCmds s inds pre = some dc ∧
      primalCmds s inds pre = some pc ∧
      overlayCmds s inds pre = some oc ∧
      lossCmds s inds = some lc ∧
      cmds = dc ++ pc ++ oc ++ lc := by
  unfold plot_snapshot at h
  split at h
  · cases h
  next its hits =>
    split at h
    · cases h
    next hne =>
      split at h
      · cases h
      next inds hinds =>
        split at h
        next dc pc oc lc hdc hpc hoc hlc =>
          exact ⟨its, inds, dc, pc, oc, lc, hits,
            by simpa [List.isEmpty_iff] using hne, hinds, hdc, hpc, hoc, hlc,
            (Option.some.inj h).symm⟩
        next => cases h

theorem plot_learning_inv {v : SSVM} {time : Bool} {pre : String}
    {cmds : List DrawCommand} (h : plot_learning v time pre = some cmds) :
    ∃ its inds dc pc oc lc,
      iterationsOf (unwrap v) = some its ∧ its ≠ [] ∧
      indsOf (unwrap v) time its = some inds ∧
      dualCmds (unwrap v) inds pre = some dc ∧
      primalCmds (unwrap v) inds pre = some pc ∧
      overlayCmds (unwrap v) inds pre = some oc ∧
      lossCmds (unwrap v) inds = some lc ∧
      cmds = dc ++ pc ++ oc ++ lc :=
  plot_snapshot_inv h

/-! ## Claims -/

/-- C7: the iteration axis is `iterations_` verbatim when that attribute
is present; otherwise it is the synthesized sequence `0..len-1` from
`dual_objective_curve_` if present, and from `primal_objective_curve_`
otherwise. -/
theorem iteration_axis_selection (s : Snapshot) :
    (∀ its, s.iterations_ = some its → iterationsOf s = some its) ∧
    (∀ d, s.iterations_ = none → s.dual_objective_curve_ = some d →
      iterationsOf s = some (arange d.length)) ∧
    (∀ p, s.iterations_ = none → s.dual_objective_curve_ = none →
      s.primal_objective_curve_ = some p →
      iterationsOf s = some (arange p.length)) := by
  refine ⟨?_, ?_, ?_⟩ <;> intros <;> simp_all [iterationsOf]

/-- Witness for C7: a snapshot with `iterations_ = [5, 7]` keeps that
axis verbatim. -/
theorem iteration_axis_selection_w :
    iterationsOf ⟨some [5, 7], none, none, none, none, none, none⟩ =
      some [5, 7] :=
  (iteration_axis_selection _).1 [5, 7] rfl

/-- C8: with wall-clock basis and timestamps present, the x-axis is the
timestamps with the first entry dropped, each divided by 60. -/
theorem wallclock_axis (s : Snapshot) (ts its : List ℚ)
    (h : s.timestamps_ = some ts) :
    indsOf s true its = some (ts.tail.map (fun t => t / 60)) := by
  simp [indsOf, h]

/-- Witness for C8: `timestamps_ = [0, 10, 70, 130]` yields the x-axis
`[1/6, 7/6, 13/6]` of length 3. -/
theorem wallclock_axis_w :
    indsOf exC8 true [0, 1, 2] = some [1/6, 7/6, 13/6] ∧
    ([1/6, 7/6, 13/6] : List ℚ).length = 3 := by
  refine ⟨?_, rfl⟩
  rw [wallclock_axis exC8 [0, 10, 70, 130] [0, 1, 2] rfl]
  norm_num

/-- C4: when `cached_constraint_` is present with at least one true flag
and the dual objective curve is present, the truncated inference mask
has length at most the dual curve's length and negates the flags at
every in-range index. -/
theorem truncated_mask_spec (s : Snapshot) (flags : List Bool) (d : List ℚ)
    (hf : s.cached_constraint_ = some flags) (ha : flags.any id = true)
    (hd : s.dual_objective_curve_ = some d) :
    ∃ m, truncated_inference_run s = some m ∧
      m.length ≤ d.length ∧
      ∀ i, (hi : i < m.length) → (hx : i < flags.length) →
        m.get ⟨i, hi⟩ = !flags.get ⟨i, hx⟩ := by
  refine ⟨(flags.map not).take d.length, ?_, ?_, ?_⟩
  · simp [truncated_inference_run, inference_run, hf, ha, hd]
  · simp
  · intro i hi hx
    simp [List.get_eq_getElem, List.getElem_take, List.getElem_map]

/-- Witness for C4: the end-to-end snapshot's mask is `[true, false,
true]`, length 3 ≤ 3, negating its flags pointwise. -/
theorem truncated_mask_spec_w :
    ∃ m, truncated_inference_run (unwrap exE2E) = some m ∧
      m.length ≤ ([10, 8, 6] : List ℚ).length ∧
      ∀ i, (hi : i < m.length) → (hx : i < [false, true, false].length) →
        m.get ⟨i, hi⟩ = !([false, true, false].get ⟨i, hx⟩) :=
  truncated_mask_spec (unwrap exE2E) [false, true, false] [10, 8, 6]
    rfl (by decide) rfl

/-- C10: when `cached_constraint_` has a true entry but
`dual_objective_curve_` is absent, `plot_learning` fails: the mask
truncation on line 112 reads the dual curve unconditionally. -/
theorem overlay_requires_dual (v : SSVM) (time : Bool) (pre : String)
    (flags : List Bool)
    (hf : (unwrap v).cached_constraint_ = some flags)
    (ha : flags.any id = true)
    (hd : (unwrap v).dual_objective_curve_ = none) :
    plot_learning v time pre = none := by
  cases h : plot_learning v time pre with
  | none => rfl
  | some cmds =>
    exfalso
    obtain ⟨its, inds, dc, pc, oc, lc, _, _, _, _, _, hoc, _, _⟩ :=
      plot_learning_inv h
    rcases overlayCmds_inv hoc with ⟨hnone, _⟩ | ⟨m, d, p, _, hd2, _⟩
    · rw [inference_run, hf] at hnone
      simp [ha] at hnone
    · rw [hd2] at hd
      cases hd

/-- Witness for C10: a concrete snapshot with `cached_constraint_ =
[true]` and no dual curve makes `plot_learning` fail. -/
theorem overlay_requires_dual_w :
    plot_learning exC10 false "" = none :=
  overlay_requires_dual exC10 false "" [true] rfl rfl rfl

/-- C5: the inference mask is present iff `cached_constraint_` is
present and has at least one true entry; an all-false flag sequence
yields an absent mask, and then no marker-only overlay command is
emitted. -/
theorem inference_mask_presence (v : SSVM) :
    ((inference_run (unwrap v)).isSome ↔
      ∃ flags, (unwrap v).cached_constraint_ = some flags ∧
        flags.any id = true) ∧
    (∀ flags, (unwrap v).cached_constraint_ = some flags →
      flags.any id = false → inference_run (unwrap v) = none) ∧
    (∀ time pre cmds, plot_learning v time pre = some cmds →
      inference_run (unwrap v) = none →
      ∀ c ∈ cmds, c.style ≠ LineStyle.markers) := by
  refine ⟨?_, ?_, ?_⟩
  · constructor
    · intro h
      cases hf : (unwrap v).cached_constraint_ with
      | none => simp [inference_run, hf] at h
      | some flags =>
        simp only [inference_run, hf] at h
        by_cases ha : flags.any id = true
        · exact ⟨flags, rfl, ha⟩
        · simp [ha] at h
    · rintro ⟨flags, hf, ha⟩
      simp [inference_run, hf, ha]
  · intro flags hf ha
    simp [inference_run, hf, ha]
  · intro time pre cmds h hnone c hc hsty
    obtain ⟨its, inds, dc, pc, oc, lc, _, _, _, hdc, hpc, hoc, hlc, rfl⟩ :=
      plot_learning_inv h
    rcases List.mem_append.mp hc with h123 | h4
    · rcases List.mem_append.mp h123 with h12 | h3
      · rcases List.mem_append.mp h12 with h1 | h2
        · rcases dualCmds_inv hdc with ⟨_, rfl⟩ | ⟨d, _, _, rfl⟩
          · cases h1
          · rw [List.mem_singleton] at h1
            subst h1
            simp at hsty
        · rcases primalCmds_inv hpc with ⟨_, rfl⟩ | ⟨p, _, _, rfl⟩
          · cases h2
          · rw [List.mem_singleton] at h2
            subst h2
            simp at hsty
      · rcases overlayCmds_inv hoc with ⟨_, rfl⟩ | ⟨m, d, p, hm, _⟩
        · cases h3
        · rw [hnone] at hm
          cases hm
    · rcases lossCmds_inv hlc with ⟨_, rfl⟩ | ⟨l, _, rfl⟩
      · cases h4
      · rw [List.mem_singleton] at h4
        subst h4
        simp at hsty

/-- Witness for C5: the all-false snapshot has no mask, and its
composed commands contain no marker overlay. -/
theorem inference_mask_presence_w :
    inference_run (unwrap exAllFalse) = none ∧
    (∀ c ∈ cmdsAllFalse, c.style ≠ LineStyle.markers) ∧
    plot_learning exAllFalse false "" = some cmdsAllFalse :=
  ⟨(inference_mask_presence exAllFalse).2.1 [false, false] rfl rfl,
   (inference_mask_presence exAllFalse).2.2 false "" cmdsAllFalse
     (by decide)
     ((inference_mask_presence exAllFalse).2.1 [false, false] rfl rfl),
   by decide⟩

/-- C9: when the primal curve is present, the emitted solid primal
command's label is `prefix ++ "cached primal objective"` when the
inference mask is present, else `prefix ++ "primal objective"`. -/
theorem primal_label_policy (v : SSVM) (time : Bool) (pre : String)
    (cmds : List DrawCommand) (p : List ℚ)
    (h : plot_learning v time pre = some cmds)
    (hp : (unwrap v).primal_objective_curve_ = some p) :
    ∃ its inds, iterationsOf (unwrap v) = some its ∧
      indsOf (unwrap v) time its = some inds ∧
      DrawCommand.mk 0 LineStyle.solid inds p
        (if (inference_run (unwrap v)).isSome then
          pre ++ "cached primal objective"
         else pre ++ "primal objective") ∈ cmds := by
  obtain ⟨its, inds, dc, pc, oc, lc, hits, _, hinds, _, hpc, _, _, rfl⟩ :=
    plot_learning_inv h
  rcases primalCmds_inv hpc with ⟨hnone, _⟩ | ⟨p2, hp2, _, rfl⟩
  · rw [hp] at hnone
    cases hnone
  · rw [hp] at hp2
    obtain rfl := Option.some.inj hp2
    exact ⟨its, inds, hits, hinds, by simp⟩

/-- Witness for C9: the end-to-end snapshot's primal label is
"cached primal objective". -/
theorem primal_label_policy_w :
    (∃ its inds, iterationsOf (unwrap exE2E) = some its ∧
      indsOf (unwrap exE2E) false its = some inds ∧
      DrawCommand.mk 0 LineStyle.solid inds [20, 15, 11]
        (if (inference_run (unwrap exE2E)).isSome then
          "" ++ "cached primal objective"
         else "" ++ "primal objective") ∈ cmdsE2E) ∧
    plot_learning exE2E false "" = some cmdsE2E :=
  ⟨primal_label_policy exE2E false "" cmdsE2E [20, 15, 11] (by decide) rfl,
   by decide⟩

/-- C6: when the inference mask is present, the objective panel holds a
marker-only overlay at the x-axis and primal curve restricted by the
truncated negated flags, labeled `prefix ++ "primal"`. -/
theorem inference_overlay (v : SSVM) (time : Bool) (pre : String)
    (cmds : List DrawCommand) (flags : List Bool)
    (h : plot_learning v time pre = some cmds)
    (hf : (unwrap v).cached_constraint_ = some flags)
    (ha : flags.any id = true) :
    ∃ d p its inds,
      (unwrap v).dual_objective_curve_ = some d ∧
      (unwrap v).primal_objective_curve_ = some p ∧
      iterationsOf (unwrap v) = some its ∧
      indsOf (unwrap v) time its = some inds ∧
      DrawCommand.mk 0 LineStyle.markers
        (maskSelect inds ((flags.map not).take d.length))
        (maskSelect p ((flags.map not).take d.length))
        (pre ++ "primal") ∈ cmds := by
  obtain ⟨its, inds, dc, pc, oc, lc, hits, _, hinds, _, _, hoc, _, rfl⟩ :=
    plot_learning_inv h
  have hm : inference_run (unwrap v) = some (flags.map not) := by
    simp [inference_run, hf, ha]
  rcases overlayCmds_inv hoc with ⟨hnone, _⟩ | ⟨m, d, p, hm2, hd, hp, _, rfl⟩
  · rw [hm] at hnone
    cases hnone
  · rw [hm] at hm2
    obtain rfl := Option.some.inj hm2
    exact ⟨d, p, its, inds, hd, hp, hits, hinds, by simp⟩

/-- Witness for C6: the end-to-end snapshot's overlay is at `x=[0,2]`,
`y=[20,11]`, label "primal", among the three emitted commands. -/
theorem inference_overlay_w :
    (∃ d p its inds,
      (unwrap exE2E).dual_objective_curve_ = some d ∧
      (unwrap exE2E).primal_objective_curve_ = some p ∧
      iterationsOf (unwrap exE2E) = some its ∧
      indsOf (unwrap exE2E) false its = some inds ∧
      DrawCommand.mk 0 LineStyle.markers
        (maskSelect inds (([false, true, false].map not).take d.length))
        (maskSelect p (([false, true, false].map not).take d.length))
        ("" ++ "primal") ∈ cmdsE2E) ∧
    plot_learning exE2E false "" = some cmdsE2E ∧
    maskSelect [0, 1, 2] [true, false, true] = ([0, 2] : List ℚ) ∧
    maskSelect [20, 15, 11] [true, false, true] = ([20, 11] : List ℚ) :=
  ⟨inference_overlay exE2E false "" cmdsE2E [false, true, false]
     (by decide) rfl (by decide),
   by decide, by decide, by decide⟩

/-- C3: the error-panel x-values are the objective x-axis strided by
`show_loss_every` when the strided length matches the loss curve's
length, and the plain index axis `0..len-1` otherwise (including when
the stride attribute is absent). -/
theorem loss_axis_stride (v : SSVM) (time : Bool) (pre : String)
    (cmds : List DrawCommand) (l : List ℚ)
    (h : plot_learning v time pre = some cmds)
    (hl : (unwrap v).loss_curve_ = some l) :
    ∃ its inds, iterationsOf (unwrap v) = some its ∧
      indsOf (unwrap v) time its = some inds ∧
      (∀ k, (unwrap v).show_loss_every = some k → k ≠ 0 →
        (strideSlice inds k).length = l.length →
        DrawCommand.mk 1 LineStyle.solid (strideSlice inds k) l "" ∈ cmds) ∧
      (∀ k, (unwrap v).show_loss_every = some k →
        (strideSlice inds k).length ≠ l.length →
        DrawCommand.mk 1 LineStyle.solid (arange l.length) l "" ∈ cmds) ∧
      ((unwrap v).show_loss_every = none →
        DrawCommand.mk 1 LineStyle.solid (arange l.length) l "" ∈ cmds) := by
  obtain ⟨its, inds, dc, pc, oc, lc, hits, _, hinds, _, _, _, hlc, rfl⟩ :=
    plot_learning_inv h
  rcases lossCmds_inv hlc with ⟨hnone, _⟩ | ⟨l2, hl2, rfl⟩
  · rw [hl] at hnone
    cases hnone
  · rw [hl] at hl2
    obtain rfl := Option.some.inj hl2
    refine ⟨its, inds, hits, hinds, ?_, ?_, ?_⟩
    · intro k hk hk0 hlen
      have hx : lossX (unwrap v) inds l = strideSlice inds k := by
        unfold lossX
        rw [hk]
        simp [hk0, hlen]
      rw [hx] at *
      simp
    · intro k hk hlen
      have hx : lossX (unwrap v) inds l = arange l.length := by
        unfold lossX
        rw [hk]
        simp [hlen]
      rw [hx] at *
      simp
    · intro hk
      have hx : lossX (unwrap v) inds l = arange l.length := by
        unfold lossX
        rw [hk]
      rw [hx] at *
      simp

/-- Witness for C3: loss curve of length 5, stride 2, objective axis of
length 8: the strided axis has length 4, so the error panel uses the
plain index axis `[0,1,2,3,4]`. -/
theorem loss_axis_stride_w :
    (∃ its inds, iterationsOf (unwrap exC3) = some its ∧
      indsOf (unwrap exC3) false its = some inds ∧
      (∀ k, (unwrap exC3).show_loss_every = some k → k ≠ 0 →
        (strideSlice inds k).length = ([5, 4, 3, 2, 1] : List ℚ).length →
        DrawCommand.mk 1 LineStyle.solid (strideSlice inds k)
          [5, 4, 3, 2, 1] "" ∈ cmdsC3) ∧
      (∀ k, (unwrap exC3).show_loss_every = some k →
        (strideSlice inds k).length ≠ ([5, 4, 3, 2, 1] : List ℚ).length →
        DrawCommand.mk 1 LineStyle.solid
          (arange ([5, 4, 3, 2, 1] : List ℚ).length)
          [5, 4, 3, 2, 1] "" ∈ cmdsC3) ∧
      ((unwrap exC3).show_loss_every = none →
        DrawCommand.mk 1 LineStyle.solid
          (arange ([5, 4, 3, 2, 1] : List ℚ).length)
          [5, 4, 3, 2, 1] "" ∈ cmdsC3)) ∧
    plot_learning exC3 false "" = some cmdsC3 ∧
    arange 5 = ([0, 1, 2, 3, 4] : List ℚ) :=
  ⟨loss_axis_stride exC3 false "" cmdsC3 [5, 4, 3, 2, 1] (by decide) rfl,
   by decide, by decide⟩

/-- C1 (amended): when the wall-clock basis is requested but
`timestamps_` is absent, `plot_learning` fails with an attribute error;
it does not fall back to the iteration axis. -/
theorem wallclock_without_timestamps_fails (v : SSVM) (pre : String)
    (ht : (unwrap v).timestamps_ = none) :
    plot_learning v true pre = none := by
  unfold plot_learning plot_snapshot
  cases iterationsOf (unwrap v) with
  | none => rfl
  | some its =>
    simp only [indsOf, ht]
    split <;> rfl

/-- Witness for C1: the concrete dual-only snapshot fails under the
wall-clock basis. -/
theorem wallclock_without_timestamps_fails_w :
    plot_learning exC1 true "" = none :=
  wallclock_without_timestamps_fails exC1 "" rfl

/-- Counterexample for C1 as stated: for `exC1` (no timestamps), the
wall-clock composition fails instead of falling back, so its commands
are not those of the iteration basis. -/
theorem wallclock_fallback_cex :
    plot_learning exC1 true "" = none ∧
    plot_learning exC1 false "" =
      some [⟨0, LineStyle.dashed, [0, 1, 2], [10, 8, 6],
        "dual objective"⟩] ∧
    plot_learning exC1 true "" ≠ plot_learning exC1 false "" := by
  refine ⟨rfl, by decide, by decide⟩

/-- C2 (amended): the batch panel count is 2 iff some loaded object has
a `loss_curve_` attribute of its own — the probe does not unwrap
`base_ssvm` — and 1 otherwise; presence is batch-wide. -/
theorem batch_panels_outer (ssvms : List SSVM) :
    (n_plots_main ssvms = 2 ↔
      ssvms.any (fun v => v.outer.loss_curve_.isSome) = true) ∧
    (n_plots_main ssvms = 1 ↔
      ssvms.any (fun v => v.outer.loss_curve_.isSome) = false) ∧
    n_plots_main ssvms =
      n_plots_main (ssvms.map (fun v => ⟨v.outer, none⟩)) := by
  have hmap : ((ssvms.map (fun v => (⟨v.outer, none⟩ : SSVM))).any
      (fun v => v.outer.loss_curve_.isSome)) =
      ssvms.any (fun v => v.outer.loss_curve_.isSome) := by
    simp only [List.any_map]
    rfl
  unfold n_plots_main
  rw [hmap]
  cases h : ssvms.any (fun v => v.outer.loss_curve_.isSome) <;> simp [h]

/-- Witness for C2: the empty batch yields one panel. -/
theorem batch_panels_outer_w : n_plots_main [] = 1 :=
  (batch_panels_outer []).2.1.mpr rfl

/-- Counterexample for C2 as stated: a batch of one wrapper whose
`base_ssvm` has a loss curve but whose own attributes do not still gets
1 panel, though the unwrapped snapshot has a loss curve. -/
theorem batch_panels_cex :
    n_plots_main [exC2] = 1 ∧
    exC2.outer.loss_curve_ = none ∧
    ((unwrap exC2).loss_curve_).isSome = true := by
  refine ⟨rfl, rfl, rfl⟩

end PlotLearning
